import Mathlib

/-!
Verification of the NetPulse measurement and quality-assessment engine.

JavaScript numbers are embedded as rationals (ℚ); IEEE-754 rounding is not
modelled, but division by zero and NaN propagation are modelled explicitly
where a claim depends on them.  `Math.sqrt` is embedded by `Rat.sqrt`, which
agrees with the real square root on perfect squares; every theorem below
only ever evaluates it at `0`.
-/

namespace NetPulse

/-- Embedding of JavaScript `Math.sqrt` on the rational number model.
`Rat.sqrt` is exact on perfect squares, and `0` is the only argument at which
any theorem in this development evaluates it. -/
def jsSqrt (q : ℚ) : ℚ := Rat.sqrt q

/-- `roundToDecimals` from the math utilities:
`Math.round(value * 10^decimals) / 10^decimals`.  Mathlib `round` on ℚ is
`⌊x + 1/2⌋`, which coincides with JavaScript `Math.round` (half toward +∞). -/
def roundToDecimals (value : ℚ) (decimals : ℕ) : ℚ :=
  ((round (value * 10 ^ decimals) : ℤ) : ℚ) / 10 ^ decimals

/-- `calculateAverage`: 0 on the empty list, else the arithmetic mean. -/
def calculateAverage (values : List ℚ) : ℚ :=
  if values.length = 0 then 0 else values.sum / values.length

/-- Embedding of `[...values].sort((a, b) => a - b)`: the ascending sort of a
copy of the array. -/
def sortAsc (values : List ℚ) : List ℚ :=
  values.insertionSort (· ≤ ·)

/-- `calculateMedian`: 0 on the empty list, the middle element for odd length,
the mean of the two central elements for even length. -/
def calculateMedian (values : List ℚ) : ℚ :=
  if values.length = 0 then 0
  else
    let sorted := sortAsc values
    let middle := sorted.length / 2
    if sorted.length % 2 = 0 then
      (sorted.getD (middle - 1) 0 + sorted.getD middle 0) / 2
    else
      sorted.getD middle 0

/-- `calculateMin`: 0 on the empty list, else `Math.min(...values)`. -/
def calculateMin (values : List ℚ) : ℚ :=
  match values with
  | [] => 0
  | v :: vs => vs.foldl min v

/-- `calculateMax`: 0 on the empty list, else `Math.max(...values)`. -/
def calculateMax (values : List ℚ) : ℚ :=
  match values with
  | [] => 0
  | v :: vs => vs.foldl max v

/-- `calculateStandardDeviation`: population standard deviation, 0 on the
empty list. -/
def calculateStandardDeviation (values : List ℚ) : ℚ :=
  if values.length = 0 then 0
  else
    let average := calculateAverage values
    let squaredDifferences := values.map (fun value => (value - average) ^ 2)
    let variance := calculateAverage squaredDifferences
    jsSqrt variance

/-- `calculateJitter`: the standard deviation of the latency samples. -/
def calculateJitter (latencyValues : List ℚ) : ℚ :=
  calculateStandardDeviation latencyValues

/-- `calculatePacketLoss`: `(lostPackets / totalPackets) * 100`, 0 when
`totalPackets` is 0. -/
def calculatePacketLoss (totalPackets lostPackets : ℚ) : ℚ :=
  if totalPackets = 0 then 0 else lostPackets / totalPackets * 100

/-- `calculatePercentile`: linear interpolation between order statistics of
the ascending sort of a copy; 0 on the empty list.  `Number.isInteger(index)`
is `index.den = 1` on the rational model. -/
def calculatePercentile (values : List ℚ) (percentile : ℚ) : ℚ :=
  if values.length = 0 then 0
  else
    let sorted := sortAsc values
    let index := percentile / 100 * (sorted.length - 1)
    if index.den = 1 then
      sorted.getD index.num.toNat 0
    else
      let lower := ⌊index⌋
      let upper := ⌈index⌉
      let weight := index - lower
      sorted.getD lower.toNat 0 * (1 - weight) + sorted.getD upper.toNat 0 * weight

/-- The record returned by the math-utilities `calculateStatistics`. -/
structure MathStatistics where
  min : ℚ
  max : ℚ
  mean : ℚ
  median : ℚ
  standardDeviation : ℚ
  jitter : ℚ
deriving DecidableEq

/-- `calculateStatistics` from the math utilities. -/
def calculateStatistics (values : List ℚ) : MathStatistics :=
  ⟨calculateMin values, calculateMax values, calculateAverage values,
   calculateMedian values, calculateStandardDeviation values,
   calculateJitter values⟩

/-- `detectOutliers`: IQR-based outlier detection; `[]` for fewer than 4
values. -/
def detectOutliers (values : List ℚ) : List ℚ :=
  if values.length < 4 then []
  else
    let sorted := sortAsc values
    let q1 := calculatePercentile sorted 25
    let q3 := calculatePercentile sorted 75
    let iqr := q3 - q1
    let lowerBound := q1 - 1.5 * iqr
    let upperBound := q3 + 1.5 * iqr
    values.filter (fun value => value < lowerBound ∨ value > upperBound)

/-- `removeOutliers`: IQR-based outlier removal; the input unchanged for
fewer than 4 values. -/
def removeOutliers (values : List ℚ) : List ℚ :=
  if values.length < 4 then values
  else
    let sorted := sortAsc values
    let q1 := calculatePercentile sorted 25
    let q3 := calculatePercentile sorted 75
    let iqr := q3 - q1
    let lowerBound := q1 - 1.5 * iqr
    let upperBound := q3 + 1.5 * iqr
    values.filter (fun value => lowerBound ≤ value ∧ value ≤ upperBound)

/-- The ordered five-level quality scale, in the order of the `qualities`
array of the speed-test services. -/
inductive QualityLevel where
  | excellent
  | good
  | fair
  | poor
  | veryPoor
deriving DecidableEq

/-- Index of a level in the `qualities` array
`['excellent', 'good', 'fair', 'poor', 'very-poor']` (`indexOf`). -/
def QualityLevel.rank : QualityLevel → ℕ
  | .excellent => 0
  | .good => 1
  | .fair => 2
  | .poor => 3
  | .veryPoor => 4

/-- Lookup `qualities[i]`; every index produced by the services is ≤ 4. -/
def QualityLevel.ofRank : ℕ → QualityLevel
  | 0 => .excellent
  | 1 => .good
  | 2 => .fair
  | 3 => .poor
  | _ => .veryPoor

/- The documented threshold table `CONSTANTS.QUALITY_THRESHOLDS`
(constants.ts, lines 206 to 239). -/
namespace QUALITY_THRESHOLDS

def LATENCY_EXCELLENT : ℚ := 50
def LATENCY_GOOD : ℚ := 100
def LATENCY_FAIR : ℚ := 200
def LATENCY_POOR : ℚ := 500
def DOWNLOAD_EXCELLENT : ℚ := 100
def DOWNLOAD_GOOD : ℚ := 50
def DOWNLOAD_FAIR : ℚ := 25
def DOWNLOAD_POOR : ℚ := 10
def UPLOAD_EXCELLENT : ℚ := 50
def UPLOAD_GOOD : ℚ := 25
def UPLOAD_FAIR : ℚ := 10
def UPLOAD_POOR : ℚ := 5
def JITTER_EXCELLENT : ℚ := 5
def JITTER_GOOD : ℚ := 10
def JITTER_FAIR : ℚ := 20
def JITTER_POOR : ℚ := 50
def PACKET_LOSS_EXCELLENT : ℚ := 0
def PACKET_LOSS_GOOD : ℚ := 1
def PACKET_LOSS_FAIR : ℚ := 3
def PACKET_LOSS_POOR : ℚ := 5

end QUALITY_THRESHOLDS

/-- `getSpeedQuality` from `SpeedTestService.calculateQuality` (and the
identical helper of `EnhancedSpeedTestService`). -/
def getSpeedQuality (speed : ℚ) : QualityLevel :=
  if speed ≥ 100 then .excellent
  else if speed ≥ 50 then .good
  else if speed ≥ 25 then .fair
  else if speed ≥ 10 then .poor
  else .veryPoor

/-- `getLatencyQuality` from `SpeedTestService.calculateQuality` (and the
identical helper of `EnhancedSpeedTestService`). -/
def getLatencyQuality (lat : ℚ) : QualityLevel :=
  if lat ≤ 20 then .excellent
  else if lat ≤ 50 then .good
  else if lat ≤ 100 then .fair
  else if lat ≤ 200 then .poor
  else .veryPoor

/-- `getLatencyQuality` from the FORMAT utilities (part_017, lines 140 to
146), re-exported through the utils index and used by the dashboard view to
classify data-point latency.  Unlike the three measurement-service
classifiers, its boundaries are STRICT: `latency < 20` is excellent, so a
latency of exactly 20 ms is classified good. -/
def formatterGetLatencyQuality (latency : ℚ) : QualityLevel :=
  if latency < 20 then .excellent
  else if latency < 50 then .good
  else if latency < 100 then .fair
  else if latency < 200 then .poor
  else .veryPoor

/-- The record returned by `LatencyTestService.assessConnectionQuality`. -/
structure ConnectionQuality where
  level : QualityLevel
  score : ℕ
  description : String
deriving DecidableEq

/-- `LatencyTestService.assessConnectionQuality`, reading the documented
threshold table of constants.ts. -/
def assessConnectionQuality (latency : ℚ) : ConnectionQuality :=
  if latency ≤ QUALITY_THRESHOLDS.LATENCY_EXCELLENT then
    ⟨.excellent, 5, "Excellent connection"⟩
  else if latency ≤ QUALITY_THRESHOLDS.LATENCY_GOOD then
    ⟨.good, 4, "Good connection"⟩
  else if latency ≤ QUALITY_THRESHOLDS.LATENCY_FAIR then
    ⟨.fair, 3, "Fair connection"⟩
  else if latency ≤ QUALITY_THRESHOLDS.LATENCY_POOR then
    ⟨.poor, 2, "Poor connection"⟩
  else
    ⟨.veryPoor, 1, "Very poor connection"⟩

/-- `assessQuality` from the monitoring hook (useMonitoring.ts): latency-only
classification used for monitoring data points and session statistics. -/
def assessQuality (latency : ℚ) : QualityLevel :=
  if latency ≤ 50 then .excellent
  else if latency ≤ 100 then .good
  else if latency ≤ 200 then .fair
  else if latency ≤ 500 then .poor
  else .veryPoor

/-- The record returned by `SpeedTestService.calculateQuality`. -/
structure SpeedQualityAssessment where
  overall : QualityLevel
  download : QualityLevel
  upload : QualityLevel
  latency : QualityLevel
deriving DecidableEq

/-- `SpeedTestService.calculateQuality` (part_018, lines 860 to 899), also
the identical method of `EnhancedSpeedTestService`: per-metric levels for
download, upload and latency, and `overall = qualities[max(indexOf each)]`,
the worst of the three. -/
def calculateQuality (downloadSpeed uploadSpeed latency : ℚ) :
    SpeedQualityAssessment :=
  let downloadQuality := getSpeedQuality downloadSpeed
  let uploadQuality := getSpeedQuality uploadSpeed
  let latencyQuality := getLatencyQuality latency
  let overallIndex :=
    max (max downloadQuality.rank uploadQuality.rank) latencyQuality.rank
  ⟨QualityLevel.ofRank overallIndex, downloadQuality, uploadQuality,
   latencyQuality⟩

/-- Specification-side definition, following the words of the spec only:
each of the five metrics maps through the documented threshold table of
constants.ts (inclusive on the better side), and the overall level is the
worst (lowest-ranked) of the five.  Compared against the code in the C1
theorems. -/
def specWorstOfFive (latency download upload jitter packetLoss : ℚ) :
    QualityLevel :=
  let latencyLevel :=
    if latency ≤ QUALITY_THRESHOLDS.LATENCY_EXCELLENT then QualityLevel.excellent
    else if latency ≤ QUALITY_THRESHOLDS.LATENCY_GOOD then QualityLevel.good
    else if latency ≤ QUALITY_THRESHOLDS.LATENCY_FAIR then QualityLevel.fair
    else if latency ≤ QUALITY_THRESHOLDS.LATENCY_POOR then QualityLevel.poor
    else QualityLevel.veryPoor
  let downloadLevel :=
    if download ≥ QUALITY_THRESHOLDS.DOWNLOAD_EXCELLENT then QualityLevel.excellent
    else if download ≥ QUALITY_THRESHOLDS.DOWNLOAD_GOOD then QualityLevel.good
    else if download ≥ QUALITY_THRESHOLDS.DOWNLOAD_FAIR then QualityLevel.fair
    else if download ≥ QUALITY_THRESHOLDS.DOWNLOAD_POOR then QualityLevel.poor
    else QualityLevel.veryPoor
  let uploadLevel :=
    if upload ≥ QUALITY_THRESHOLDS.UPLOAD_EXCELLENT then QualityLevel.excellent
    else if upload ≥ QUALITY_THRESHOLDS.UPLOAD_GOOD then QualityLevel.good
    else if upload ≥ QUALITY_THRESHOLDS.UPLOAD_FAIR then QualityLevel.fair
    else if upload ≥ QUALITY_THRESHOLDS.UPLOAD_POOR then QualityLevel.poor
    else QualityLevel.veryPoor
  let jitterLevel :=
    if jitter ≤ QUALITY_THRESHOLDS.JITTER_EXCELLENT then QualityLevel.excellent
    else if jitter ≤ QUALITY_THRESHOLDS.JITTER_GOOD then QualityLevel.good
    else if jitter ≤ QUALITY_THRESHOLDS.JITTER_FAIR then QualityLevel.fair
    else if jitter ≤ QUALITY_THRESHOLDS.JITTER_POOR then QualityLevel.poor
    else QualityLevel.veryPoor
  let packetLossLevel :=
    if packetLoss ≤ QUALITY_THRESHOLDS.PACKET_LOSS_EXCELLENT then QualityLevel.excellent
    else if packetLoss ≤ QUALITY_THRESHOLDS.PACKET_LOSS_GOOD then QualityLevel.good
    else if packetLoss ≤ QUALITY_THRESHOLDS.PACKET_LOSS_FAIR then QualityLevel.fair
    else if packetLoss ≤ QUALITY_THRESHOLDS.PACKET_LOSS_POOR then QualityLevel.poor
    else QualityLevel.veryPoor
  QualityLevel.ofRank
    (max (max (max (max latencyLevel.rank downloadLevel.rank) uploadLevel.rank)
      jitterLevel.rank) packetLossLevel.rank)

/-- One entry of the monitoring ring buffer (useMonitoring.ts). -/
structure MonitoringDataPoint where
  timestamp : ℚ
  latency : ℚ
  downloadSpeed : ℚ
  uploadSpeed : ℚ
  jitter : ℚ
  packetLoss : ℚ
  quality : QualityLevel
deriving DecidableEq

/-- The statistics snapshot of a monitoring session (useMonitoring.ts). -/
structure SessionStatistics where
  averageLatency : ℚ
  averageDownload : ℚ
  averageUpload : ℚ
  averageJitter : ℚ
  averagePacketLoss : ℚ
  overallQuality : QualityLevel
deriving DecidableEq

/-- The parts of a `MonitoringSession` the claims are about: the data-point
buffer, its capacity `config.maxDataPoints`, and the statistics snapshot.
Identifier, start time and status fields are not needed by any claim. -/
structure MonitoringSession where
  dataPoints : List MonitoringDataPoint
  maxDataPoints : ℕ
  statistics : SessionStatistics
deriving DecidableEq

/-- `updateSessionStatistics` from useMonitoring.ts (lines 167 to 186):
returns early on an empty buffer, else replaces the statistics snapshot with
rounded arithmetic means.  The object literal is fully evaluated before it is
assigned to `session.statistics`, so the `overallQuality` field reads
`session.statistics.averageLatency` of the PREVIOUS snapshot, and is computed
by the latency-only classifier `assessQuality`. -/
def updateSessionStatistics (session : MonitoringSession) : MonitoringSession :=
  if session.dataPoints.length = 0 then session
  else
    let latencies := session.dataPoints.map (fun dp => dp.latency)
    let downloadSpeeds := session.dataPoints.map (fun dp => dp.downloadSpeed)
    let uploadSpeeds := session.dataPoints.map (fun dp => dp.uploadSpeed)
    let jitters := session.dataPoints.map (fun dp => dp.jitter)
    let packetLosses := session.dataPoints.map (fun dp => dp.packetLoss)
    { session with
      statistics :=
        { averageLatency := roundToDecimals (latencies.sum / latencies.length) 1
          averageDownload := roundToDecimals (downloadSpeeds.sum / downloadSpeeds.length) 1
          averageUpload := roundToDecimals (uploadSpeeds.sum / uploadSpeeds.length) 1
          averageJitter := roundToDecimals (jitters.sum / jitters.length) 1
          averagePacketLoss := roundToDecimals (packetLosses.sum / packetLosses.length) 2
          overallQuality := assessQuality session.statistics.averageLatency } }

/-- One monitoring tick on the data-point buffer (startMonitoring lines 255
to 264 and the identical resumeMonitoring lines 360 to 367): push the new
point, then `shift()` the oldest entry when the length exceeds
`maxDataPoints`. -/
def monitoringTick (maxDataPoints : ℕ) (dataPoints : List MonitoringDataPoint)
    (p : MonitoringDataPoint) : List MonitoringDataPoint :=
  let pushed := dataPoints ++ [p]
  if maxDataPoints < pushed.length then pushed.tail else pushed

/-- A sequence of elapsed monitoring ticks delivering the points `ps`. -/
def monitoringRun (maxDataPoints : ℕ) (dataPoints : List MonitoringDataPoint)
    (ps : List MonitoringDataPoint) : List MonitoringDataPoint :=
  ps.foldl (monitoringTick maxDataPoints) dataPoints

/-- One bucket of the progressive payload table. -/
structure ProgressiveFile where
  name : String
  size : ℚ
  minSpeed : ℚ
  maxSpeed : ℚ
deriving DecidableEq

/- The `progressiveFiles` table, identical in `SpeedTestService` (part_018,
lines 106 to 111) and `EnhancedSpeedTestService` (part_019). -/

def smallFile : ProgressiveFile := ⟨"small", 350 * 1024, 0, 10⟩

def mediumFile : ProgressiveFile := ⟨"medium", 750 * 1024, 10, 25⟩

def largeFile : ProgressiveFile := ⟨"large", 1.5 * 1024 * 1024, 25, 50⟩

def xlargeFile : ProgressiveFile := ⟨"xlarge", 3 * 1024 * 1024, 50, 100⟩

def xxlargeFile : ProgressiveFile := ⟨"xxlarge", 5 * 1024 * 1024, 100, 1000⟩

def progressiveFiles : List ProgressiveFile :=
  [smallFile, mediumFile, largeFile, xlargeFile, xxlargeFile]

/-- The `for (const file of this.progressiveFiles)` loop of
`selectOptimalFileSize`: the first bucket with
`estimatedSpeed >= file.minSpeed && estimatedSpeed <= file.maxSpeed`. -/
def findMatchingFile (estimatedSpeed : ℚ) :
    List ProgressiveFile → Option ProgressiveFile
  | [] => none
  | f :: fs =>
    if f.minSpeed ≤ estimatedSpeed ∧ estimatedSpeed ≤ f.maxSpeed then some f
    else findMatchingFile estimatedSpeed fs

/-- `selectOptimalFileSize` (part_018 lines 400 to 441, and the equivalent
part_019 lines 936 to 971) as a function of the probe speed estimate: the
loop over the table with CLOSED ranges, then
`progressiveFiles[length - 1]` (xxlarge) when the estimate exceeds 100,
else the `progressiveFiles[2]` (large) default. -/
def selectOptimalFileSize (estimatedSpeed : ℚ) : ProgressiveFile :=
  match findMatchingFile estimatedSpeed progressiveFiles with
  | some f => f
  | none => if estimatedSpeed > 100 then xxlargeFile else largeFile

/-- Specification-side definition, following the words of the spec only:
the bucket of the ordered table whose half-open range
`[minSpeed, maxSpeed)` contains the estimate; an estimate at or above every
maxSpeed selects the largest bucket.  Compared against the code in the C4
theorems. -/
def specFindHalfOpen (estimatedSpeed : ℚ) :
    List ProgressiveFile → Option ProgressiveFile
  | [] => none
  | f :: fs =>
    if f.minSpeed ≤ estimatedSpeed ∧ estimatedSpeed < f.maxSpeed then some f
    else specFindHalfOpen estimatedSpeed fs

/-- Specification-side payload selection (see `specFindHalfOpen`). -/
def specSelectPayload (estimatedSpeed : ℚ) : ProgressiveFile :=
  match specFindHalfOpen estimatedSpeed progressiveFiles with
  | some f => f
  | none => xxlargeFile

/-- `calculateStability`, identical in `SpeedTestService` (part_018, lines
845 to 855) and `EnhancedSpeedTestService` (part_019, lines 1102 to 1111).
`none` models the JavaScript result `NaN`:
with `mean = 0` the coefficient of variation `stdDev / mean` is `0 / 0 = NaN`
when `stdDev = 0` (and `NaN` propagates through `100 - NaN * 100` and
`Math.max`), while for `stdDev > 0` it is `+Infinity`, so
`100 - Infinity = -Infinity` and `Math.max(0, -Infinity) = 0`.
(`stdDev` is a square root of a square sum and is never negative.)
For `mean ≠ 0` the arithmetic is plain rational arithmetic. -/
def calculateStability (speeds : List ℚ) : Option ℚ :=
  if speeds.length < 2 then some 100
  else
    let mean : ℚ := speeds.sum / speeds.length
    let variance : ℚ :=
      (speeds.map (fun speed => (speed - mean) ^ 2)).sum / speeds.length
    let stdDev := jsSqrt variance
    if mean = 0 then (if stdDev = 0 then none else some 0)
    else some (max 0 (100 - stdDev / mean * 100))

/-- The record returned by `LatencyTestService.calculateStatistics`. -/
structure LatencyTestResults where
  samples : ℕ
  min : ℚ
  max : ℚ
  avg : ℚ
  median : ℚ
  jitter : ℚ
  packetLoss : ℚ
  quality : ConnectionQuality
  rawData : List ℚ
deriving DecidableEq

/-- `LatencyTestService.calculateStatistics` (part_019, lines 333 to 363).
`configSamples` is `this.config.samples` (the number of attempts of the
sampling loop) and `results` is `this.results`, the successful samples in
order. -/
def latencyCalculateStatistics (configSamples : ℕ) (results : List ℚ) :
    LatencyTestResults :=
  if results.length = 0 then
    ⟨0, 0, 0, 0, 0, 0, 100, assessConnectionQuality 0, []⟩
  else
    let stats := calculateStatistics results
    let packetLoss :=
      ((configSamples : ℚ) - results.length) / configSamples * 100
    ⟨results.length,
     roundToDecimals stats.min 1,
     roundToDecimals stats.max 1,
     roundToDecimals stats.mean 1,
     roundToDecimals stats.median 1,
     roundToDecimals stats.jitter 1,
     roundToDecimals packetLoss 1,
     assessConnectionQuality stats.mean,
     results⟩

/-- Error information surfaced through the `onError` callback. -/
structure ErrorInfo where
  message : String
deriving DecidableEq

/-- `LatencyTestService.start` (part_019, lines 73 to 144).  The network is
abstracted by the list of per-attempt outcomes of `measureSinglePing`
(`some latency` on success, `none` when every probing method failed), so
`attempts.length = this.config.samples` for a run that is not stopped early.
The loop catches each failed sample, logs it and continues, so
`this.results` collects exactly the successful outcomes in order; nothing
after the loop can throw, `onComplete` is always invoked (the `Bool`
component) and the statistics record is always returned: no
error path is reachable from failed samples alone. -/
def latencyStart (attempts : List (Option ℚ)) :
    Except ErrorInfo (LatencyTestResults × Bool) :=
  let results := attempts.filterMap id
  let statistics := latencyCalculateStatistics attempts.length results
  Except.ok (statistics, true)

/- State-passing embeddings for the frame claim: a math-utilities function
that could mutate the caller array returns the content of that array after
the call alongside its result.  `[...values]` copies the array and `.sort`
is invoked on the copy, while `filter` allocates a fresh array, so the
caller array is returned unchanged in every branch. -/

/-- `calculateMedian` with the caller array threaded through the call. -/
def calculateMedianCall (values : List ℚ) : ℚ × List ℚ :=
  if values.length = 0 then (0, values)
  else
    let copy := values
    let sorted := sortAsc copy
    let middle := sorted.length / 2
    (if sorted.length % 2 = 0 then
      (sorted.getD (middle - 1) 0 + sorted.getD middle 0) / 2
    else sorted.getD middle 0, values)

/-- `calculatePercentile` with the caller array threaded through the call. -/
def calculatePercentileCall (values : List ℚ) (percentile : ℚ) : ℚ × List ℚ :=
  if values.length = 0 then (0, values)
  else
    let copy := values
    let sorted := sortAsc copy
    let index := percentile / 100 * (sorted.length - 1)
    (if index.den = 1 then sorted.getD index.num.toNat 0
     else
      let lower := ⌊index⌋
      let upper := ⌈index⌉
      let weight := index - lower
      sorted.getD lower.toNat 0 * (1 - weight) + sorted.getD upper.toNat 0 * weight,
     values)

/-- `detectOutliers` with the caller array threaded through the call. -/
def detectOutliersCall (values : List ℚ) : List ℚ × List ℚ :=
  if values.length < 4 then ([], values)
  else
    let copy := values
    let sorted := sortAsc copy
    let q1 := calculatePercentile sorted 25
    let q3 := calculatePercentile sorted 75
    let iqr := q3 - q1
    let lowerBound := q1 - 1.5 * iqr
    let upperBound := q3 + 1.5 * iqr
    (values.filter (fun value => value < lowerBound ∨ value > upperBound),
     values)

/-- `removeOutliers` with the caller array threaded through the call. -/
def removeOutliersCall (values : List ℚ) : List ℚ × List ℚ :=
  if values.length < 4 then (values, values)
  else
    let copy := values
    let sorted := sortAsc copy
    let q1 := calculatePercentile sorted 25
    let q3 := calculatePercentile sorted 75
    let iqr := q3 - q1
    let lowerBound := q1 - 1.5 * iqr
    let upperBound := q3 + 1.5 * iqr
    (values.filter (fun value => lowerBound ≤ value ∧ value ≤ upperBound),
     values)

/-- A concrete healthy data point, used to instantiate monitoring theorems. -/
def samplePoint : MonitoringDataPoint := ⟨0, 10, 50, 20, 2, 0, .excellent⟩

/-- A concrete monitoring session holding one healthy data point. -/
def sampleSession : MonitoringSession :=
  ⟨[samplePoint], 50, ⟨10, 50, 20, 2, 0, .excellent⟩⟩

/-- A data point with excellent latency but a download and upload speed of
1 Mbps, far below every speed threshold. -/
def cexDataPoint : MonitoringDataPoint := ⟨0, 10, 1, 1, 1, 0, .excellent⟩

/-- A session whose buffered averages have excellent latency but very poor
download and upload speed. -/
def cexSession : MonitoringSession :=
  ⟨[cexDataPoint], 50, ⟨10, 1, 1, 1, 0, .excellent⟩⟩

/-! Helper lemmas. -/

lemma jsSqrt_zero : jsSqrt 0 = 0 := by
  have h := Rat.sqrt_eq (0 : ℚ)
  rw [mul_zero] at h
  simp [jsSqrt, h]

lemma roundToDecimals_eq_of_bounds (v : ℚ) (d : ℕ) (z : ℤ)
    (h1 : (z : ℚ) ≤ v * 10 ^ d + 1 / 2) (h2 : v * 10 ^ d + 1 / 2 < z + 1) :
    roundToDecimals v d = (z : ℚ) / 10 ^ d := by
  unfold roundToDecimals
  rw [round_eq, Int.floor_eq_iff.mpr ⟨h1, by exact_mod_cast h2⟩]

lemma roundToDecimals_eq_of_int (v : ℚ) (d : ℕ) (z : ℤ)
    (h : v * 10 ^ d = (z : ℚ)) : roundToDecimals v d = v := by
  have h10 : ((10 : ℚ) ^ d) ≠ 0 := by positivity
  rw [roundToDecimals_eq_of_bounds v d z (by rw [h]; linarith)
    (by rw [h]; linarith), ← h]
  field_simp

lemma foldl_min_le_init : ∀ (l : List ℚ) (a : ℚ), l.foldl min a ≤ a := by
  intro l
  induction l with
  | nil => intro a; simp
  | cons v vs ih =>
    intro a
    calc (v :: vs).foldl min a = vs.foldl min (min a v) := by simp
    _ ≤ min a v := ih (min a v)
    _ ≤ a := min_le_left a v

lemma foldl_min_le_mem : ∀ (l : List ℚ) (a x : ℚ), x ∈ l → l.foldl min a ≤ x := by
  intro l
  induction l with
  | nil => intro a x hx; simp at hx
  | cons v vs ih =>
    intro a x hx
    rcases List.mem_cons.mp hx with hv | hvs
    · subst hv
      calc (x :: vs).foldl min a = vs.foldl min (min a x) := by simp
      _ ≤ min a x := foldl_min_le_init vs (min a x)
      _ ≤ x := min_le_right a x
    · simpa using ih (min a v) x hvs

lemma foldl_min_mem_or : ∀ (l : List ℚ) (a : ℚ),
    l.foldl min a = a ∨ l.foldl min a ∈ l := by
  intro l
  induction l with
  | nil => intro a; left; rfl
  | cons v vs ih =>
    intro a
    have hstep : (v :: vs).foldl min a = vs.foldl min (min a v) := by simp
    rcases ih (min a v) with h | h
    · rcases min_choice a v with hc | hc
      · left; rw [hstep, h, hc]
      · right; rw [hstep, h, hc]; exact List.mem_cons_self v vs
    · right; rw [hstep]; exact List.mem_cons_of_mem v h

lemma foldl_max_init_le : ∀ (l : List ℚ) (a : ℚ), a ≤ l.foldl max a := by
  intro l
  induction l with
  | nil => intro a; simp
  | cons v vs ih =>
    intro a
    calc a ≤ max a v := le_max_left a v
    _ ≤ vs.foldl max (max a v) := ih (max a v)
    _ = (v :: vs).foldl max a := by simp

lemma foldl_max_mem_le : ∀ (l : List ℚ) (a x : ℚ), x ∈ l → x ≤ l.foldl max a := by
  intro l
  induction l with
  | nil => intro a x hx; simp at hx
  | cons v vs ih =>
    intro a x hx
    rcases List.mem_cons.mp hx with hv | hvs
    · subst hv
      calc x ≤ max a x := le_max_right a x
      _ ≤ vs.foldl max (max a x) := foldl_max_init_le vs (max a x)
      _ = (x :: vs).foldl max a := by simp
    · simpa using ih (max a v) x hvs

lemma foldl_max_mem_or : ∀ (l : List ℚ) (a : ℚ),
    l.foldl max a = a ∨ l.foldl max a ∈ l := by
  intro l
  induction l with
  | nil => intro a; left; rfl
  | cons v vs ih =>
    intro a
    have hstep : (v :: vs).foldl max a = vs.foldl max (max a v) := by simp
    rcases ih (max a v) with h | h
    · rcases max_choice a v with hc | hc
      · left; rw [hstep, h, hc]
      · right; rw [hstep, h, hc]; exact List.mem_cons_self v vs
    · right; rw [hstep]; exact List.mem_cons_of_mem v h

lemma calculateMin_le {values : List ℚ} {x : ℚ} (hx : x ∈ values) :
    calculateMin values ≤ x := by
  cases values with
  | nil => simp at hx
  | cons v vs =>
    rcases List.mem_cons.mp hx with hv | hvs
    · subst hv; exact foldl_min_le_init vs x
    · exact foldl_min_le_mem vs v x hvs

lemma calculateMin_mem {values : List ℚ} (h : values ≠ []) :
    calculateMin values ∈ values := by
  cases values with
  | nil => exact absurd rfl h
  | cons v vs =>
    rcases foldl_min_mem_or vs v with hc | hc
    · rw [calculateMin, hc]; exact List.mem_cons_self v vs
    · exact List.mem_cons_of_mem v hc

lemma le_calculateMax {values : List ℚ} {x : ℚ} (hx : x ∈ values) :
    x ≤ calculateMax values := by
  cases values with
  | nil => simp at hx
  | cons v vs =>
    rcases List.mem_cons.mp hx with hv | hvs
    · subst hv; exact foldl_max_init_le vs x
    · exact foldl_max_mem_le vs v x hvs

lemma calculateMax_mem {values : List ℚ} (h : values ≠ []) :
    calculateMax values ∈ values := by
  cases values with
  | nil => exact absurd rfl h
  | cons v vs =>
    rcases foldl_max_mem_or vs v with hc | hc
    · rw [calculateMax, hc]; exact List.mem_cons_self v vs
    · exact List.mem_cons_of_mem v hc

lemma getD_mem_of_lt : ∀ (l : List ℚ) (i : ℕ), i < l.length → l.getD i 0 ∈ l := by
  intro l
  induction l with
  | nil => intro i hi; simp at hi
  | cons v vs ih =>
    intro i hi
    cases i with
    | zero => simp
    | succ j =>
      have hj : j < vs.length := by simpa using hi
      simpa using Or.inr (ih j hj)

lemma calculateAverage_bounds {values : List ℚ} (h : values ≠ []) :
    calculateMin values ≤ calculateAverage values ∧
      calculateAverage values ≤ calculateMax values := by
  have hlen : values.length ≠ 0 := by simpa [List.length_eq_zero] using h
  have hpos : (0 : ℚ) < values.length := by
    exact_mod_cast Nat.pos_of_ne_zero hlen
  have hlow : (values.length : ℚ) * calculateMin values ≤ values.sum := by
    have := List.card_nsmul_le_sum values (calculateMin values)
      (fun x hx => calculateMin_le hx)
    simpa [nsmul_eq_mul] using this
  have hhigh : values.sum ≤ (values.length : ℚ) * calculateMax values := by
    have := List.sum_le_card_nsmul values (calculateMax values)
      (fun x hx => le_calculateMax hx)
    simpa [nsmul_eq_mul] using this
  constructor
  · rw [calculateAverage, if_neg hlen, le_div_iff₀ hpos]
    linarith
  · rw [calculateAverage, if_neg hlen, div_le_iff₀ hpos]
    linarith

lemma sortAsc_perm (values : List ℚ) : List.Perm (sortAsc values) values :=
  List.perm_insertionSort (fun a b => a ≤ b) values

lemma sortAsc_length (values : List ℚ) : (sortAsc values).length = values.length :=
  (sortAsc_perm values).length_eq

lemma calculateMedian_bounds {values : List ℚ} (h : values ≠ []) :
    calculateMin values ≤ calculateMedian values ∧
      calculateMedian values ≤ calculateMax values := by
  have hlen : values.length ≠ 0 := by simpa [List.length_eq_zero] using h
  have hslen : (sortAsc values).length = values.length := sortAsc_length values
  have hpos : 0 < (sortAsc values).length := by
    rw [hslen]; exact Nat.pos_of_ne_zero hlen
  have hbounds : ∀ i, i < (sortAsc values).length →
      calculateMin values ≤ (sortAsc values).getD i 0 ∧
        (sortAsc values).getD i 0 ≤ calculateMax values := by
    intro i hi
    have hmem : (sortAsc values).getD i 0 ∈ values :=
      (sortAsc_perm values).subset (getD_mem_of_lt _ i hi)
    exact ⟨calculateMin_le hmem, le_calculateMax hmem⟩
  have hmid : (sortAsc values).length / 2 < (sortAsc values).length :=
    Nat.div_lt_self hpos (by norm_num)
  rw [calculateMedian, if_neg hlen]
  dsimp only
  split_ifs with hpar
  · have hmid1 : (sortAsc values).length / 2 - 1 < (sortAsc values).length := by
      omega
    have h1 := hbounds _ hmid1
    have h2 := hbounds _ hmid
    constructor <;> [linarith; linarith]
  · exact hbounds _ hmid

lemma rank_le_four (q : QualityLevel) : q.rank ≤ 4 := by
  cases q <;> simp [QualityLevel.rank]

lemma ofRank_rank {n : ℕ} (h : n ≤ 4) : (QualityLevel.ofRank n).rank = n := by
  interval_cases n <;> rfl

lemma monitoringTick_length_le {maxN : ℕ} {dataPoints : List MonitoringDataPoint}
    {p : MonitoringDataPoint} (h : dataPoints.length ≤ maxN) :
    (monitoringTick maxN dataPoints p).length ≤ maxN := by
  unfold monitoringTick
  dsimp only
  split_ifs with hlt
  · simp only [List.length_tail, List.length_append, List.length_singleton]
    omega
  · simp only [List.length_append, List.length_singleton] at hlt ⊢
    omega

lemma select_eq_small {e : ℚ} (he : 0 ≤ e) (h : e ≤ 10) :
    selectOptimalFileSize e = smallFile := by
  have h1 : smallFile.minSpeed ≤ e ∧ e ≤ smallFile.maxSpeed := by
    refine ⟨?_, ?_⟩ <;> simp [smallFile] <;> linarith
  simp [selectOptimalFileSize, findMatchingFile, progressiveFiles, h1]

lemma select_eq_medium {e : ℚ} (h1 : 10 < e) (h2 : e ≤ 25) :
    selectOptimalFileSize e = mediumFile := by
  have hn1 : ¬(smallFile.minSpeed ≤ e ∧ e ≤ smallFile.maxSpeed) := by
    simp only [smallFile, not_and, not_le]
    intro _; linarith
  have hy : mediumFile.minSpeed ≤ e ∧ e ≤ mediumFile.maxSpeed := by
    refine ⟨?_, ?_⟩ <;> simp [mediumFile] <;> linarith
  simp [selectOptimalFileSize, findMatchingFile, progressiveFiles, hn1, hy]

lemma select_eq_large {e : ℚ} (h1 : 25 < e) (h2 : e ≤ 50) :
    selectOptimalFileSize e = largeFile := by
  have hn1 : ¬(smallFile.minSpeed ≤ e ∧ e ≤ smallFile.maxSpeed) := by
    simp only [smallFile, not_and, not_le]
    intro _; linarith
  have hn2 : ¬(mediumFile.minSpeed ≤ e ∧ e ≤ mediumFile.maxSpeed) := by
    simp only [mediumFile, not_and, not_le]
    intro _; linarith
  have hy : largeFile.minSpeed ≤ e ∧ e ≤ largeFile.maxSpeed := by
    refine ⟨?_, ?_⟩ <;> simp [largeFile] <;> linarith
  simp [selectOptimalFileSize, findMatchingFile, progressiveFiles, hn1, hn2, hy]

lemma select_eq_xlarge {e : ℚ} (h1 : 50 < e) (h2 : e ≤ 100) :
    selectOptimalFileSize e = xlargeFile := by
  have hn1 : ¬(smallFile.minSpeed ≤ e ∧ e ≤ smallFile.maxSpeed) := by
    simp only [smallFile, not_and, not_le]
    intro _; linarith
  have hn2 : ¬(mediumFile.minSpeed ≤ e ∧ e ≤ mediumFile.maxSpeed) := by
    simp only [mediumFile, not_and, not_le]
    intro _; linarith
  have hn3 : ¬(largeFile.minSpeed ≤ e ∧ e ≤ largeFile.maxSpeed) := by
    simp only [largeFile, not_and, not_le]
    intro _; linarith
  have hy : xlargeFile.minSpeed ≤ e ∧ e ≤ xlargeFile.maxSpeed := by
    refine ⟨?_, ?_⟩ <;> simp [xlargeFile] <;> linarith
  simp [selectOptimalFileSize, findMatchingFile, progressiveFiles,
    hn1, hn2, hn3, hy]

lemma select_eq_xxlarge {e : ℚ} (h1 : 100 < e) :
    selectOptimalFileSize e = xxlargeFile := by
  have hn1 : ¬(smallFile.minSpeed ≤ e ∧ e ≤ smallFile.maxSpeed) := by
    simp only [smallFile, not_and, not_le]
    intro _; linarith
  have hn2 : ¬(mediumFile.minSpeed ≤ e ∧ e ≤ mediumFile.maxSpeed) := by
    simp only [mediumFile, not_and, not_le]
    intro _; linarith
  have hn3 : ¬(largeFile.minSpeed ≤ e ∧ e ≤ largeFile.maxSpeed) := by
    simp only [largeFile, not_and, not_le]
    intro _; linarith
  have hn4 : ¬(xlargeFile.minSpeed ≤ e ∧ e ≤ xlargeFile.maxSpeed) := by
    simp only [xlargeFile, not_and, not_le]
    intro _; linarith
  rcases le_or_lt e 1000 with hle | hgt
  · have hy : xxlargeFile.minSpeed ≤ e ∧ e ≤ xxlargeFile.maxSpeed := by
      refine ⟨?_, ?_⟩ <;> simp [xxlargeFile] <;> linarith
    simp [selectOptimalFileSize, findMatchingFile, progressiveFiles,
      hn1, hn2, hn3, hn4, hy]
  · have hn5 : ¬(xxlargeFile.minSpeed ≤ e ∧ e ≤ xxlargeFile.maxSpeed) := by
      simp only [xxlargeFile, not_and, not_le]
      intro _; linarith
    simp [selectOptimalFileSize, findMatchingFile, progressiveFiles,
      hn1, hn2, hn3, hn4, hn5, h1]

lemma sum_of_constant {l : List ℚ} {c : ℚ} (h : ∀ x ∈ l, x = c) :
    l.sum = l.length * c := by
  induction l with
  | nil => simp
  | cons v vs ih =>
    have hv : v = c := h v (List.mem_cons_self v vs)
    have hvs : ∀ x ∈ vs, x = c := fun x hx => h x (List.mem_cons_of_mem v hx)
    rw [List.sum_cons, ih hvs, hv, List.length_cons]
    push_cast
    ring

/-! Claim theorems. -/

/-- C3 counterexample: the format-utilities latency classifier used by the
dashboard has boundaries that are STRICT on the better side: a latency of
exactly 20 ms is classified good there, not excellent, while the speed-test
classifier maps the same value to excellent.  So not every
latency-classifying call site is inclusive on the better side, and
`x ≤ 20 ⇒ excellent` fails at that site at x = 20. -/
theorem latency_boundary_site_cex :
    formatterGetLatencyQuality 20 = QualityLevel.good ∧
    formatterGetLatencyQuality 20 ≠ QualityLevel.excellent ∧
    getLatencyQuality 20 = QualityLevel.excellent := by
  refine ⟨?_, ?_, ?_⟩
  · norm_num [formatterGetLatencyQuality]
  · norm_num [formatterGetLatencyQuality]
    decide
  · norm_num [getLatencyQuality]

/-- C3 (amended): the three measurement-service call sites
(`getLatencyQuality` of the speed-test services: 20/50/100/200; the
latency-test service via constants.ts and the monitoring hook:
50/100/200/500) use boundaries inclusive on the better side and classify
every latency `x ≤ 20` as excellent; the format-utilities classifier used by
the dashboard instead uses strict boundaries, so only `x < 20` is excellent
there and each boundary value falls to the worse level. -/
theorem latency_classification_inclusive (x : ℚ) (hx : x ≤ 20) :
    getLatencyQuality x = QualityLevel.excellent ∧
    (assessConnectionQuality x).level = QualityLevel.excellent ∧
    assessQuality x = QualityLevel.excellent ∧
    (getLatencyQuality 20 = QualityLevel.excellent ∧
     getLatencyQuality 50 = QualityLevel.good ∧
     getLatencyQuality 100 = QualityLevel.fair ∧
     getLatencyQuality 200 = QualityLevel.poor) ∧
    ((assessConnectionQuality 50).level = QualityLevel.excellent ∧
     (assessConnectionQuality 100).level = QualityLevel.good ∧
     (assessConnectionQuality 200).level = QualityLevel.fair ∧
     (assessConnectionQuality 500).level = QualityLevel.poor) ∧
    (assessQuality 50 = QualityLevel.excellent ∧
     assessQuality 100 = QualityLevel.good ∧
     assessQuality 200 = QualityLevel.fair ∧
     assessQuality 500 = QualityLevel.poor) ∧
    (x < 20 → formatterGetLatencyQuality x = QualityLevel.excellent) ∧
    (formatterGetLatencyQuality 20 = QualityLevel.good ∧
     formatterGetLatencyQuality 50 = QualityLevel.fair ∧
     formatterGetLatencyQuality 100 = QualityLevel.poor ∧
     formatterGetLatencyQuality 200 = QualityLevel.veryPoor) := by
  have h50 : x ≤ 50 := by linarith
  refine ⟨?_, ?_, ?_, ?_, ?_, ?_, ?_, ?_⟩
  · rw [getLatencyQuality, if_pos hx]
  · rw [assessConnectionQuality,
      if_pos (show x ≤ QUALITY_THRESHOLDS.LATENCY_EXCELLENT by
        rw [QUALITY_THRESHOLDS.LATENCY_EXCELLENT]; exact h50)]
  · rw [assessQuality, if_pos h50]
  · norm_num [getLatencyQuality]
  · norm_num [assessConnectionQuality, QUALITY_THRESHOLDS.LATENCY_EXCELLENT,
      QUALITY_THRESHOLDS.LATENCY_GOOD, QUALITY_THRESHOLDS.LATENCY_FAIR,
      QUALITY_THRESHOLDS.LATENCY_POOR]
  · norm_num [assessQuality]
  · intro hlt
    rw [formatterGetLatencyQuality, if_pos hlt]
  · norm_num [formatterGetLatencyQuality]

/-- C3 witness at latency 3 ms, at all four call sites. -/
theorem latency_classification_inclusive_witness :
    getLatencyQuality 3 = QualityLevel.excellent ∧
    (assessConnectionQuality 3).level = QualityLevel.excellent ∧
    assessQuality 3 = QualityLevel.excellent ∧
    formatterGetLatencyQuality 3 = QualityLevel.excellent :=
  ⟨(latency_classification_inclusive 3 (by norm_num)).1,
   (latency_classification_inclusive 3 (by norm_num)).2.1,
   (latency_classification_inclusive 3 (by norm_num)).2.2.1,
   (latency_classification_inclusive 3 (by norm_num)).2.2.2.2.2.2.1
     (by norm_num)⟩

/-- C7: for every non-empty sample list, the statistics record satisfies
min ≤ median ≤ max and min ≤ mean ≤ max. -/
theorem statistics_median_mean_within_min_max (values : List ℚ)
    (h : values ≠ []) :
    (calculateStatistics values).min ≤ (calculateStatistics values).median ∧
    (calculateStatistics values).median ≤ (calculateStatistics values).max ∧
    (calculateStatistics values).min ≤ (calculateStatistics values).mean ∧
    (calculateStatistics values).mean ≤ (calculateStatistics values).max := by
  have hmed := calculateMedian_bounds h
  have havg := calculateAverage_bounds h
  exact ⟨hmed.1, hmed.2, havg.1, havg.2⟩

/-- C7 witness at the sample list [10, 20, 30]. -/
theorem statistics_median_mean_within_min_max_witness :
    (calculateStatistics [10, 20, 30]).min ≤ (calculateStatistics [10, 20, 30]).median ∧
    (calculateStatistics [10, 20, 30]).median ≤ (calculateStatistics [10, 20, 30]).max ∧
    (calculateStatistics [10, 20, 30]).min ≤ (calculateStatistics [10, 20, 30]).mean ∧
    (calculateStatistics [10, 20, 30]).mean ≤ (calculateStatistics [10, 20, 30]).max :=
  statistics_median_mean_within_min_max [10, 20, 30] (by simp)

/-- C8: every statistics function returns 0 on the empty input, and packet
loss with an expected count of 0 returns 0; all of them are total. -/
theorem stats_empty_input_zero :
    calculateAverage [] = 0 ∧ calculateMedian [] = 0 ∧ calculateMin [] = 0 ∧
    calculateMax [] = 0 ∧ calculateStandardDeviation [] = 0 ∧
    calculateJitter [] = 0 ∧ (∀ p : ℚ, calculatePercentile [] p = 0) ∧
    (∀ lost : ℚ, calculatePacketLoss 0 lost = 0) :=
  ⟨rfl, rfl, rfl, rfl, rfl, rfl, fun _ => rfl, fun _ => rfl⟩

/-- C9: a monitoring buffer that respects its capacity keeps respecting it
after any number of elapsed ticks, and a tick on a full buffer evicts
exactly the oldest point. -/
theorem monitoring_buffer_bounded (maxN : ℕ)
    (dps ps : List MonitoringDataPoint) (h : dps.length ≤ maxN) :
    (monitoringRun maxN dps ps).length ≤ maxN ∧
    (∀ p, dps.length = maxN → dps ≠ [] →
      monitoringTick maxN dps p = dps.tail ++ [p]) := by
  constructor
  · induction ps generalizing dps with
    | nil => simpa [monitoringRun] using h
    | cons q qs ih =>
      have hstep : monitoringRun maxN dps (q :: qs) =
          monitoringRun maxN (monitoringTick maxN dps q) qs := by
        simp [monitoringRun]
      rw [hstep]
      exact ih _ (monitoringTick_length_le h)
  · intro p hfull hne
    unfold monitoringTick
    dsimp only
    rw [if_pos (by simp [hfull])]
    cases dps with
    | nil => exact absurd rfl hne
    | cons d ds => simp

/-- C9 witness: capacity 2, a full buffer of 2 points, 3 further ticks. -/
theorem monitoring_buffer_bounded_witness :
    (monitoringRun 2 [samplePoint, samplePoint]
      [samplePoint, samplePoint, samplePoint]).length ≤ 2 ∧
    monitoringTick 2 [samplePoint, samplePoint] samplePoint =
      [samplePoint, samplePoint] := by
  refine ⟨(monitoring_buffer_bounded 2 [samplePoint, samplePoint]
    [samplePoint, samplePoint, samplePoint] (by simp)).1, ?_⟩
  have := (monitoring_buffer_bounded 2 [samplePoint, samplePoint]
    [samplePoint, samplePoint, samplePoint] (by simp)).2 samplePoint
    (by simp) (by simp)
  simpa using this

/-- C10: the state-passing embeddings of the sorting-based statistics
functions return the caller array unchanged (the source sorts a spread
copy and filters into a fresh array), alongside the value of the pure
function. -/
theorem stats_functions_preserve_caller_array (values : List ℚ) (p : ℚ) :
    calculateMedianCall values = (calculateMedian values, values) ∧
    calculatePercentileCall values p = (calculatePercentile values p, values) ∧
    detectOutliersCall values = (detectOutliers values, values) ∧
    removeOutliersCall values = (removeOutliers values, values) := by
  refine ⟨?_, ?_, ?_, ?_⟩
  · unfold calculateMedianCall calculateMedian
    split_ifs <;> rfl
  · unfold calculatePercentileCall calculatePercentile
    split_ifs <;> rfl
  · unfold detectOutliersCall detectOutliers
    split_ifs <;> rfl
  · unfold removeOutliersCall removeOutliers
    split_ifs <;> rfl

/-- C1 counterexample: a session whose averages are 10 ms latency but 1 Mbps
download and upload.  The code sets the session overall quality to excellent
(latency-only), while the worst-of-five over the same averages and the
documented threshold table is very-poor. -/
theorem monitoring_overall_quality_cex :
    (updateSessionStatistics cexSession).statistics.overallQuality =
      QualityLevel.excellent ∧
    specWorstOfFive
      (updateSessionStatistics cexSession).statistics.averageLatency
      (updateSessionStatistics cexSession).statistics.averageDownload
      (updateSessionStatistics cexSession).statistics.averageUpload
      (updateSessionStatistics cexSession).statistics.averageJitter
      (updateSessionStatistics cexSession).statistics.averagePacketLoss =
      QualityLevel.veryPoor ∧
    QualityLevel.excellent ≠ QualityLevel.veryPoor := by
  have r10 : roundToDecimals (10 : ℚ) 1 = 10 :=
    roundToDecimals_eq_of_int 10 1 100 (by norm_num)
  have r1 : roundToDecimals (1 : ℚ) 1 = 1 :=
    roundToDecimals_eq_of_int 1 1 10 (by norm_num)
  have r0 : roundToDecimals (0 : ℚ) 2 = 0 :=
    roundToDecimals_eq_of_int 0 2 0 (by norm_num)
  have hupd : updateSessionStatistics cexSession =
      ⟨[cexDataPoint], 50, ⟨10, 1, 1, 1, 0, QualityLevel.excellent⟩⟩ := by
    norm_num [updateSessionStatistics, cexSession, cexDataPoint, r10, r1, r0,
      assessQuality]
  rw [hupd]
  refine ⟨rfl, ?_, by decide⟩
  norm_num [specWorstOfFive, QualityLevel.rank, QualityLevel.ofRank,
    QUALITY_THRESHOLDS.LATENCY_EXCELLENT, QUALITY_THRESHOLDS.DOWNLOAD_EXCELLENT,
    QUALITY_THRESHOLDS.DOWNLOAD_GOOD, QUALITY_THRESHOLDS.DOWNLOAD_FAIR,
    QUALITY_THRESHOLDS.DOWNLOAD_POOR, QUALITY_THRESHOLDS.UPLOAD_EXCELLENT,
    QUALITY_THRESHOLDS.UPLOAD_GOOD, QUALITY_THRESHOLDS.UPLOAD_FAIR,
    QUALITY_THRESHOLDS.UPLOAD_POOR, QUALITY_THRESHOLDS.JITTER_EXCELLENT,
    QUALITY_THRESHOLDS.PACKET_LOSS_EXCELLENT]

/-- C1 (amended): the speed-test overall quality is the worst (highest rank)
of the THREE per-metric levels it computes (download, upload, latency), and
the monitoring session overall quality is the latency-only classification of
the previous statistics snapshot average latency — not a worst-of-five. -/
theorem overall_quality_composition (d u l : ℚ) (s : MonitoringSession)
    (h : s.dataPoints ≠ []) :
    (calculateQuality d u l).overall.rank =
      max (max (calculateQuality d u l).download.rank
        (calculateQuality d u l).upload.rank)
        (calculateQuality d u l).latency.rank ∧
    (updateSessionStatistics s).statistics.overallQuality =
      assessQuality s.statistics.averageLatency := by
  constructor
  · simp only [calculateQuality]
    exact ofRank_rank
      (max_le (max_le (rank_le_four _) (rank_le_four _)) (rank_le_four _))
  · have hlen : s.dataPoints.length ≠ 0 := by
      simpa [List.length_eq_zero] using h
    simp [updateSessionStatistics, hlen]

/-- C1 witness at concrete metrics and the concrete sample session. -/
theorem overall_quality_composition_witness :
    (calculateQuality 200 30 10).overall.rank =
      max (max (calculateQuality 200 30 10).download.rank
        (calculateQuality 200 30 10).upload.rank)
        (calculateQuality 200 30 10).latency.rank ∧
    (updateSessionStatistics sampleSession).statistics.overallQuality =
      assessQuality sampleSession.statistics.averageLatency :=
  overall_quality_composition 200 30 10 sampleSession (by simp [sampleSession])

/-- C2 counterexample: a 5-attempt series in which every attempt fails does
NOT raise: `start` returns a zero-sample result (all statistics 0,
packetLoss 100, quality assessed at latency 0, hence excellent) and invokes
the completion callback. -/
theorem latency_zero_success_cex :
    latencyStart (List.replicate 5 none) =
      Except.ok (⟨0, 0, 0, 0, 0, 0, 100, assessConnectionQuality 0, []⟩, true) ∧
    (assessConnectionQuality 0).level = QualityLevel.excellent := by
  constructor
  · rfl
  · norm_num [assessConnectionQuality, QUALITY_THRESHOLDS.LATENCY_EXCELLENT]

/-- C2 (amended): a series with zero successes returns a result with
samples 0, statistics 0, packetLoss 100 and quality assessed at latency 0,
and invokes the completion callback; no error is raised. -/
theorem latency_zero_success_completes (attempts : List (Option ℚ))
    (h : attempts.filterMap id = []) :
    latencyStart attempts =
      Except.ok (⟨0, 0, 0, 0, 0, 0, 100, assessConnectionQuality 0, []⟩, true) := by
  simp [latencyStart, h, latencyCalculateStatistics]

/-- C2 witness: a 2-attempt series in which both attempts fail. -/
theorem latency_zero_success_completes_witness :
    latencyStart [none, none] =
      Except.ok (⟨0, 0, 0, 0, 0, 0, 100, assessConnectionQuality 0, []⟩, true) :=
  latency_zero_success_completes [none, none] rfl

/-- C4 counterexample: a probe estimate of exactly 10 Mbps sits on the
boundary between the small bucket (closed range reaching 10) and the medium
bucket (half-open range starting at 10).  The code selects small; the
half-open selection of the spec selects medium. -/
theorem payload_selector_boundary_cex :
    selectOptimalFileSize 10 = smallFile ∧
    specSelectPayload 10 = mediumFile ∧
    smallFile ≠ mediumFile := by
  refine ⟨select_eq_small (by norm_num) le_rfl, ?_,
    by norm_num [smallFile, mediumFile]⟩
  norm_num [specSelectPayload, specFindHalfOpen, progressiveFiles, smallFile,
    mediumFile]

/-- C4 (amended): the selector returns the first bucket of the ordered table
whose CLOSED range [minSpeed, maxSpeed] contains the estimate, so a shared
boundary resolves to the smaller bucket; an estimate of 0 selects the
smallest bucket and an estimate above every maxSpeed selects the largest. -/
theorem payload_selector_closed_ranges (e : ℚ) (he : 0 ≤ e) :
    selectOptimalFileSize e =
      (if e ≤ 10 then smallFile
       else if e ≤ 25 then mediumFile
       else if e ≤ 50 then largeFile
       else if e ≤ 100 then xlargeFile
       else xxlargeFile) ∧
    selectOptimalFileSize 0 = smallFile ∧
    ((∀ f ∈ progressiveFiles, f.maxSpeed < e) →
      selectOptimalFileSize e = xxlargeFile) := by
  refine ⟨?_, select_eq_small le_rfl (by norm_num), ?_⟩
  · split_ifs with h1 h2 h3 h4
    · exact select_eq_small he h1
    · exact select_eq_medium (not_le.mp h1) h2
    · exact select_eq_large (not_le.mp h2) h3
    · exact select_eq_xlarge (not_le.mp h3) h4
    · exact select_eq_xxlarge (not_le.mp h4)
  · intro hall
    have hxx := hall xxlargeFile (by simp [progressiveFiles])
    have h1000 : (1000 : ℚ) < e := by simpa [xxlargeFile] using hxx
    exact select_eq_xxlarge (by linarith)

/-- C4 witness at the estimate 30 Mbps. -/
theorem payload_selector_closed_ranges_witness :
    selectOptimalFileSize 30 =
      (if (30 : ℚ) ≤ 10 then smallFile
       else if (30 : ℚ) ≤ 25 then mediumFile
       else if (30 : ℚ) ≤ 50 then largeFile
       else if (30 : ℚ) ≤ 100 then xlargeFile
       else xxlargeFile) ∧
    selectOptimalFileSize 0 = smallFile ∧
    ((∀ f ∈ progressiveFiles, f.maxSpeed < 30) →
      selectOptimalFileSize 30 = xxlargeFile) :=
  payload_selector_closed_ranges 30 (by norm_num)

/-- C5 counterexample: on the all-zero list [0, 0] (two numerically
identical samples) the stability computation divides 0 by 0, producing NaN
(modelled by `none`), not 100. -/
theorem stability_all_zero_nan :
    calculateStability [0, 0] = none ∧ calculateStability [0, 0] ≠ some 100 := by
  have h : calculateStability [0, 0] = none := by
    norm_num [calculateStability, jsSqrt_zero]
  exact ⟨h, by rw [h]; simp⟩

/-- C5 (amended): stability is 100 for fewer than 2 samples; 100 whenever
all samples are numerically identical with a NONZERO common value; and for
at least 2 samples with nonzero mean it equals
max(0, 100·(1 − stdev/mean)) with population standard deviation.  (For the
all-zero list the JavaScript computation yields NaN.) -/
theorem calculateStability_spec (speeds : List ℚ) :
    (speeds.length < 2 → calculateStability speeds = some 100) ∧
    (∀ c : ℚ, c ≠ 0 → 2 ≤ speeds.length → (∀ x ∈ speeds, x = c) →
      calculateStability speeds = some 100) ∧
    (2 ≤ speeds.length → calculateAverage speeds ≠ 0 →
      calculateStability speeds =
        some (max 0 (100 * (1 - calculateStandardDeviation speeds /
          calculateAverage speeds)))) := by
  refine ⟨?_, ?_, ?_⟩
  · intro h
    rw [calculateStability, if_pos h]
  · intro c hc hlen hall
    have hlen0 : speeds.length ≠ 0 := by omega
    have hcast : (speeds.length : ℚ) ≠ 0 := Nat.cast_ne_zero.mpr hlen0
    have hsum : speeds.sum = speeds.length * c := sum_of_constant hall
    have hmean : speeds.sum / (speeds.length : ℚ) = c := by
      rw [hsum]; field_simp
    have hvar : (speeds.map
        (fun speed => (speed - speeds.sum / (speeds.length : ℚ)) ^ 2)).sum = 0 := by
      apply List.sum_eq_zero
      intro y hy
      rcases List.mem_map.mp hy with ⟨x, hx, hxy⟩
      rw [← hxy, hmean, hall x hx]
      ring
    rw [calculateStability, if_neg (not_lt.mpr hlen)]
    dsimp only
    rw [hvar, zero_div, jsSqrt_zero, hmean, if_neg hc]
    norm_num
  · intro hlen hne
    have hlen0 : speeds.length ≠ 0 := by omega
    have havg : calculateAverage speeds = speeds.sum / (speeds.length : ℚ) := by
      rw [calculateAverage, if_neg hlen0]
    have hmaplen : (speeds.map
        (fun value => (value - calculateAverage speeds) ^ 2)).length ≠ 0 := by
      simpa using hlen0
    have hsd : calculateStandardDeviation speeds =
        jsSqrt ((speeds.map
          (fun value => (value - speeds.sum / (speeds.length : ℚ)) ^ 2)).sum /
          (speeds.length : ℚ)) := by
      rw [calculateStandardDeviation, if_neg hlen0]
      dsimp only
      rw [calculateAverage, if_neg hmaplen, List.length_map, havg]
    rw [calculateStability, if_neg (not_lt.mpr hlen)]
    dsimp only
    rw [if_neg (show ¬speeds.sum / (speeds.length : ℚ) = 0 by
      rw [← havg]; exact hne)]
    rw [← hsd, ← havg]
    congr 1
    ring

/-- C5 witness: a single sample, two identical nonzero samples, and two
distinct samples with nonzero mean. -/
theorem calculateStability_spec_witness :
    calculateStability [7] = some 100 ∧
    calculateStability [5, 5] = some 100 ∧
    calculateStability [4, 2] =
      some (max 0 (100 * (1 - calculateStandardDeviation [4, 2] /
        calculateAverage [4, 2]))) :=
  ⟨(calculateStability_spec [7]).1 (by decide),
   (calculateStability_spec [5, 5]).2.1 5 (by decide) (by decide) (by decide),
   (calculateStability_spec [4, 2]).2.2 (by decide)
     (by norm_num [calculateAverage])⟩

/-- C6 counterexample: 3 attempts with 1 success.  The exact ratio is
(3 − 1)/3 · 100 = 200/3 percent, but the code reports the one-decimal
rounding 66.7, so the reported packet loss is not equal to the ratio. -/
theorem latency_packet_loss_rounded_cex :
    (latencyCalculateStatistics 3 [10]).packetLoss = 667 / 10 ∧
    ((3 : ℚ) - 1) / 3 * 100 ≠ 667 / 10 ∧
    latencyStart [some 10, none, none] =
      Except.ok (latencyCalculateStatistics 3 [10], true) := by
  refine ⟨?_, by norm_num, rfl⟩
  norm_num [latencyCalculateStatistics]
  rw [roundToDecimals_eq_of_bounds (200 / 3) 1 667 (by norm_num) (by norm_num)]
  norm_num

/-- C6 (amended): for a series of n attempts with s successes, the reported
packet loss is the ONE-DECIMAL ROUNDING of (n − s)/n · 100, and the
min/max/avg/median/jitter fields are one-decimal roundings of statistics
computed only over the s successful samples (`rawData` is exactly the list
of successes). -/
theorem latency_series_statistics (attempts : List (Option ℚ))
    (h : 0 < attempts.length) :
    latencyStart attempts =
      Except.ok (latencyCalculateStatistics attempts.length
        (attempts.filterMap id), true) ∧
    (latencyCalculateStatistics attempts.length (attempts.filterMap id)).samples =
      (attempts.filterMap id).length ∧
    (latencyCalculateStatistics attempts.length (attempts.filterMap id)).packetLoss =
      roundToDecimals (((attempts.length : ℚ) -
        ((attempts.filterMap id).length : ℚ)) / (attempts.length : ℚ) * 100) 1 ∧
    (latencyCalculateStatistics attempts.length (attempts.filterMap id)).min =
      roundToDecimals (calculateMin (attempts.filterMap id)) 1 ∧
    (latencyCalculateStatistics attempts.length (attempts.filterMap id)).max =
      roundToDecimals (calculateMax (attempts.filterMap id)) 1 ∧
    (latencyCalculateStatistics attempts.length (attempts.filterMap id)).avg =
      roundToDecimals (calculateAverage (attempts.filterMap id)) 1 ∧
    (latencyCalculateStatistics attempts.length (attempts.filterMap id)).median =
      roundToDecimals (calculateMedian (attempts.filterMap id)) 1 ∧
    (latencyCalculateStatistics attempts.length (attempts.filterMap id)).jitter =
      roundToDecimals (calculateJitter (attempts.filterMap id)) 1 ∧
    (latencyCalculateStatistics attempts.length (attempts.filterMap id)).rawData =
      attempts.filterMap id := by
  have hcast : (attempts.length : ℚ) ≠ 0 := Nat.cast_ne_zero.mpr (by omega)
  by_cases hres : attempts.filterMap id = []
  · have hr : latencyCalculateStatistics attempts.length (attempts.filterMap id) =
        ⟨0, 0, 0, 0, 0, 0, 100, assessConnectionQuality 0, []⟩ := by
      rw [hres]; rfl
    have hz : roundToDecimals (0 : ℚ) 1 = 0 :=
      roundToDecimals_eq_of_int 0 1 0 (by norm_num)
    have h100 : ((attempts.length : ℚ) -
        ((attempts.filterMap id).length : ℚ)) / (attempts.length : ℚ) * 100 = 100 := by
      rw [hres]
      simp only [List.length_nil, Nat.cast_zero, sub_zero]
      rw [div_self hcast]
      norm_num
    refine ⟨rfl, ?_, ?_, ?_, ?_, ?_, ?_, ?_, ?_⟩
    · rw [hr, hres]; rfl
    · rw [hr, h100, roundToDecimals_eq_of_int 100 1 1000 (by norm_num)]
    · rw [hr, hres, show calculateMin ([] : List ℚ) = 0 from rfl, hz]
    · rw [hr, hres, show calculateMax ([] : List ℚ) = 0 from rfl, hz]
    · rw [hr, hres, show calculateAverage ([] : List ℚ) = 0 from rfl, hz]
    · rw [hr, hres, show calculateMedian ([] : List ℚ) = 0 from rfl, hz]
    · rw [hr, hres, show calculateJitter ([] : List ℚ) = 0 from rfl, hz]
    · rw [hr, hres]
  · have hlen : (attempts.filterMap id).length ≠ 0 := by
      simpa [List.length_eq_zero] using hres
    refine ⟨rfl, ?_, ?_, ?_, ?_, ?_, ?_, ?_, ?_⟩ <;>
      (rw [latencyCalculateStatistics, if_neg hlen]; try rfl)

/-- C6 witness: 3 attempts of which the second fails. -/
theorem latency_series_statistics_witness :
    latencyStart [some 10, none, some 30] =
      Except.ok (latencyCalculateStatistics (List.length [some (10 : ℚ), none, some 30])
        (List.filterMap id [some 10, none, some 30]), true) ∧
    (latencyCalculateStatistics (List.length [some (10 : ℚ), none, some 30])
        (List.filterMap id [some 10, none, some 30])).samples =
      (List.filterMap id [some (10 : ℚ), none, some 30]).length ∧
    (latencyCalculateStatistics (List.length [some (10 : ℚ), none, some 30])
        (List.filterMap id [some 10, none, some 30])).packetLoss =
      roundToDecimals (((List.length [some (10 : ℚ), none, some 30] : ℚ) -
        ((List.filterMap id [some (10 : ℚ), none, some 30]).length : ℚ)) /
        (List.length [some (10 : ℚ), none, some 30] : ℚ) * 100) 1 ∧
    (latencyCalculateStatistics (List.length [some (10 : ℚ), none, some 30])
        (List.filterMap id [some 10, none, some 30])).min =
      roundToDecimals (calculateMin (List.filterMap id [some 10, none, some 30])) 1 ∧
    (latencyCalculateStatistics (List.length [some (10 : ℚ), none, some 30])
        (List.filterMap id [some 10, none, some 30])).max =
      roundToDecimals (calculateMax (List.filterMap id [some 10, none, some 30])) 1 ∧
    (latencyCalculateStatistics (List.length [some (10 : ℚ), none, some 30])
        (List.filterMap id [some 10, none, some 30])).avg =
      roundToDecimals (calculateAverage (List.filterMap id [some 10, none, some 30])) 1 ∧
    (latencyCalculateStatistics (List.length [some (10 : ℚ), none, some 30])
        (List.filterMap id [some 10, none, some 30])).median =
      roundToDecimals (calculateMedian (List.filterMap id [some 10, none, some 30])) 1 ∧
    (latencyCalculateStatistics (List.length [some (10 : ℚ), none, some 30])
        (List.filterMap id [some 10, none, some 30])).jitter =
      roundToDecimals (calculateJitter (List.filterMap id [some 10, none, some 30])) 1 ∧
    (latencyCalculateStatistics (List.length [some (10 : ℚ), none, some 30])
        (List.filterMap id [some 10, none, some 30])).rawData =
      List.filterMap id [some 10, none, some 30] :=
  latency_series_statistics [some 10, none, some 30] (by decide)

end NetPulse
